import Mathlib

/-!
Shallow embedding of the polling/notification core of the
stream-notification application (Python sources `src/` and
`regular_execution/`), together with theorems settling the
specification claims about it.

Layers, mirroring the source:
  * constants from `src/constants/app_constant.py`;
  * the Twitch API client (`src/twitch/twitch.py`): per-request token
    handling, `_make_request`/`_get_response` error conversion,
    `get_stream_by_name`, `get_broadcaster_id`, `close`;
  * message formatting (`format_display_message`, two revisions);
  * one iteration of `check_stream_status` and the session driver
    (`run` / `check_streamer_existence`) as event-trace functions;
  * application lifecycle (`cleanup`, `is_running`) as a state machine.

Python `None`/empty values are modelled with `Option`; Python string
truthiness (`if s:`) is `Option.isSome` combined with non-emptiness;
a raised `TwitchAPIError` is `Except.error`.
-/

namespace StreamNotif

/-- `AppConstant.CHECK_INTERVAL` (`src/constants/app_constant.py`):
normal check interval in seconds. -/
def CHECK_INTERVAL : Nat := 60

/-- `AppConstant.STREAMING_INTERVAL`: check interval while streaming. -/
def STREAMING_INTERVAL : Nat := 3600

/-- `AppConstant.TIMEOUT_SECONDS`: per-request timeout. -/
def TIMEOUT_SECONDS : Nat := 10

/-! ### Twitch API layer (`src/twitch/twitch.py`) -/

/-- One record of the `data` list of the `streams` endpoint, with the
two fields the client reads (`data[0].get("user_name")`,
`data[0].get("title")`); `get` returns `None` when a key is absent. -/
structure StreamRecord where
  user_name : Option String
  title : Option String
deriving DecidableEq, Repr

/-- One record of the `data` list of the `users` endpoint, with the
fields read by `get_broadcaster_id`. -/
structure UserRecord where
  id : Option String
  profile_image_url : Option String
deriving DecidableEq, Repr

/-- The mutable fields of `TwitchAPI` relevant to authentication:
`self.session` (present or not) and `self.access_token`. -/
structure TwitchState where
  session : Bool
  access_token : Option String
deriving DecidableEq, Repr

/-- Outcome of one POST to the OAuth token endpoint, an input oracle to
`_get_access_token`: either a granted token value or an
`aiohttp.ClientError`. -/
inductive TokenEndpoint where
  | grant : String → TokenEndpoint
  | fail : TokenEndpoint
deriving DecidableEq, Repr

/-- Outcome of one GET on an API endpoint, an input oracle to
`_make_request`: an HTTP response with a status code and the parsed
`data` field (`data.get("data")`, absent ⇒ `none`), or a transport
failure / timeout (`aiohttp.ClientError`). -/
inductive HttpReply (α : Type) where
  | status : Nat → Option (List α) → HttpReply α
  | transportFail : HttpReply α
deriving DecidableEq, Repr

/-- `TwitchAPI._ensure_access_token` composed with `_get_access_token`:
if a token is cached it is kept (the endpoint is not consulted);
otherwise a token is fetched, raising `TwitchAPIError` (`Except.error`)
when the session is missing or the endpoint request fails. -/
def ensure_access_token (s : TwitchState) (te : TokenEndpoint) :
    Except Unit TwitchState :=
  match s.access_token with
  | some _ => .ok s
  | none =>
      if s.session then
        match te with
        | .grant tok => .ok { s with access_token := some tok }
        | .fail => .error ()
      else .error ()

/-- `TwitchAPI.close`: when a session is open, close it and null both
`self.session` and `self.access_token`; otherwise do nothing. -/
def close (s : TwitchState) : TwitchState :=
  if s.session then { session := false, access_token := none } else s

/-- `TwitchAPI._make_request` followed by `_get_response`: check the
session, ensure the token, perform the GET, and run
`response.raise_for_status()` (which raises for any status ≥ 400,
caught by `_make_request` and re-raised as `TwitchAPIError`).  Returns
the `data` field and the resulting client state.  No branch of the
source clears `access_token`. -/
def get_response {α : Type} (s : TwitchState) (te : TokenEndpoint)
    (reply : HttpReply α) : Except Unit (Option (List α)) × TwitchState :=
  if s.session then
    match ensure_access_token s te with
    | .error () => (.error (), s)
    | .ok s1 =>
        match reply with
        | .transportFail => (.error (), s1)
        | .status code dat =>
            if 400 ≤ code then (.error (), s1) else (.ok dat, s1)
  else (.error (), s)

/-- `TwitchAPI.get_stream_by_name`, as a function of the outcome of
`_get_response` on the `streams` endpoint: a raised `TwitchAPIError`
is caught, logged and turned into `(None, None)`; a missing or empty
`data` list also yields `(None, None)`; otherwise
`_get_stream_data` reads the first record. -/
def get_stream_by_name (resp : Except Unit (Option (List StreamRecord))) :
    Option String × Option String :=
  match resp with
  | .error () => (none, none)
  | .ok none => (none, none)
  | .ok (some []) => (none, none)
  | .ok (some (r :: _)) => (r.user_name, r.title)

/-- `TwitchAPI.get_broadcaster_id`, as a function of the outcome of
`_get_response` on the `users` endpoint and of the profile-image
download (`imageOk`; a download failure raises `TwitchAPIError`,
caught by the surrounding `except` and turned into `None`). -/
def get_broadcaster_id (resp : Except Unit (Option (List UserRecord)))
    (imageOk : Bool) : Option String :=
  match resp with
  | .error () => none
  | .ok none => none
  | .ok (some []) => none
  | .ok (some (u :: _)) => if imageOk then u.id else none

/-! ### Message formatting -/

/-- Python `str.lower()`, modelled as per-character lowering
(`Char.toLower` lowers exactly the ASCII uppercase letters; logins
are validated upstream to `[a-zA-Z0-9_]+`, where the two agree). -/
def py_lower (s : String) : String :=
  String.mk (s.data.map Char.toLower)

/-- `StreamNotification.format_display_message`
(`src/stream_notification.py`, identical in `src/main.py`):
display name alone when login and display name agree up to
`lower()`, otherwise `display_name(login)`. -/
def format_display_message (username display_name stream_title : String) :
    String :=
  let base_format := " has started streaming: " ++ stream_title
  if py_lower username = py_lower display_name then
    display_name ++ base_format
  else
    display_name ++ "(" ++ username ++ ")" ++ base_format

/-- `StreamNotificationApp.format_display_message` of
`regular_execution/main.py`: the comparison there is
`username == display_name`, with no lowering. -/
def format_display_message_regular
    (username display_name stream_title : String) : String :=
  let base_format := " has started streaming: " ++ stream_title
  if username = display_name then
    display_name ++ base_format
  else
    display_name ++ "(" ++ username ++ ")" ++ base_format

/-! ### The polling loop (`check_stream_status`) -/

/-- The value pair returned by `get_stream_by_name` as observed by one
iteration of `check_stream_status`. -/
structure Observation where
  display_name : Option String
  stream_title : Option String
deriving DecidableEq, Repr

/-- Python truthiness of an optional string (`if s:`): `None` and the
empty string are falsy. -/
def truthy : Option String → Bool
  | none => false
  | some s => !(s = "")

/-- The guard of the notifying branch of `check_stream_status`
(`if display_name and stream_title:`). -/
def notifies (o : Observation) : Bool :=
  truthy o.display_name && truthy o.stream_title

/-- The sleep chosen at the end of one loop iteration:
`STREAMING_INTERVAL` after the notifying branch, `CHECK_INTERVAL`
otherwise. -/
def sleepInterval (o : Observation) : Nat :=
  if notifies o then STREAMING_INTERVAL else CHECK_INTERVAL

/-- Observable events of a monitoring session. -/
inductive AppEvent where
  | getLiveStream
  | notify
  | sleep : Nat → AppEvent
  | lookupBroadcaster
  | foundMsg
  | notFoundMsg
  | taskCancel
  | apiClose
  | setEvent
deriving DecidableEq, Repr

/-- The events of one iteration of `check_stream_status`
(`src/main.py` lines 75–102): poll `get_stream_by_name`, notify when
both fields are truthy, then sleep for the chosen interval. -/
def iterEvents (o : Observation) : List AppEvent :=
  [AppEvent.getLiveStream]
    ++ (if notifies o then [AppEvent.notify] else [])
    ++ [AppEvent.sleep (sleepInterval o)]

/-- The event trace of running the loop body once per observation of a
list (the loop keeps no state between iterations besides
`is_running`, which stays true while observations are fed). -/
def pollTrace (obs : List Observation) : List AppEvent :=
  obs.flatMap iterEvents

/-- Whether each observation of a list triggers a notification. -/
def notificationsFired (obs : List Observation) : List Bool :=
  obs.map notifies

/-- Turn the pair returned by `get_stream_by_name` into an
`Observation` (`display_name, stream_title = await ...`). -/
def obsOf (p : Option String × Option String) : Observation :=
  { display_name := p.1, stream_title := p.2 }

/-! ### Session driver (`check_streamer_existence` and `run`) -/

/-- `StreamNotificationApp.check_streamer_existence` (`src/main.py`
lines 104–127), as a function of the broadcaster-id lookup result:
a truthy id means found. -/
def check_streamer_existence (bid : Option String) : Bool :=
  truthy bid

/-- The session slice of `StreamNotificationApp.run` after the
username prompt (`src/main.py` lines 180–215): run the existence
check; when it fails, return without creating the status task; when it
succeeds, run the polling loop over the observation feed. -/
def runSession (userResp : Except Unit (Option (List UserRecord)))
    (imageOk : Bool) (obs : List Observation) : List AppEvent :=
  let bid := get_broadcaster_id userResp imageOk
  if check_streamer_existence bid then
    AppEvent.lookupBroadcaster :: AppEvent.foundMsg :: pollTrace obs
  else
    [AppEvent.lookupBroadcaster, AppEvent.notFoundMsg]

/-! ### Lifecycle (`cleanup`, `is_running`) -/

/-- An entry of `self._cleanup_tasks`: whether the task has completed
and whether it was cancelled. -/
structure TaskRec where
  done : Bool
  cancelled : Bool
deriving DecidableEq, Repr

/-- The application state owned by `StreamNotificationApp` /
`StreamNotification`: the `is_running` flag, the `_cleanup_tasks`
list, the API client state, the `cleanup_compelete_event`, and a log
of the observable effects so far. -/
structure AppState where
  is_running : Bool
  tasks : List TaskRec
  api : TwitchState
  cleanup_complete_event : Bool
  log : List AppEvent
deriving DecidableEq, Repr

/-- `cleanup` (`src/main.py` lines 153–171, identical in
`src/stream_notification.py` lines 344–368): return at once when
`is_running` is already false; otherwise set it false, cancel and
await every task not yet done, close the API client (which closes the
session only when one is open), and set the completion event. -/
def cleanup (s : AppState) : AppState :=
  if s.is_running then
    { is_running := false
      tasks := s.tasks.map fun t =>
        if t.done then t else { done := true, cancelled := true }
      api := close s.api
      cleanup_complete_event := true
      log := s.log
        ++ (s.tasks.filter fun t => !t.done).map (fun _ => AppEvent.taskCancel)
        ++ (if s.api.session then [AppEvent.apiClose] else [])
        ++ [AppEvent.setEvent] }
  else s

/-- The state right after `__init__` (`is_running = True`, no tasks,
event unset) and `initialize` (session opened; the token is fetched
right after, left abstract here). -/
def initState (tok : Option String) : AppState :=
  { is_running := true
    tasks := []
    api := { session := true, access_token := tok }
    cleanup_complete_event := false
    log := [] }

/-- One scheduler step of the application: either a full iteration of
`check_stream_status` (its `while self.is_running` guard requires the
flag), or a call to `cleanup`.  These are the only writers reachable
from the session: no step ever assigns `is_running = True`. -/
inductive AppStep : AppState → AppState → Prop
  | poll (o : Observation) (s : AppState) :
      s.is_running = true →
      AppStep s { s with log := s.log ++ iterEvents o }
  | doCleanup (s : AppState) : AppStep s (cleanup s)

/-! ### Username validation (`src/utils/validators.py`) -/

/-- Membership in the character class `[a-zA-Z0-9_]`. -/
def is_word_char (c : Char) : Bool :=
  ('a' ≤ c && c ≤ 'z') || ('A' ≤ c && c ≤ 'Z') ||
  ('0' ≤ c && c ≤ '9') || c = '_'

/-- Python `re.match(r"^[a-zA-Z0-9_]+$", s) is not None`: the regex
matches iff the whole string is one or more word characters, or — by
Python's `$` semantics, which also matches just before a newline that
ends the string — all but a single trailing newline is. -/
def re_match_username (s : String) : Bool :=
  let cs := s.data
  (!cs.isEmpty && cs.all is_word_char) ||
  (cs.getLast? = some (Char.ofNat 10) && !cs.dropLast.isEmpty &&
    cs.dropLast.all is_word_char)

/-- `UsernameValidator.validate`: raises `ValidationError`
(`Except.error` with the message) on empty input or on a failed regex
match, returns `None` (`Except.ok ()`) otherwise. -/
def validate (s : String) : Except String Unit :=
  if s = "" then .error "Username cannot be empty"
  else if !(re_match_username s) then .error "Username must be alphanumeric"
  else .ok ()

/-! ### Concrete observations for the edge-triggering scenario -/

/-- An offline observation: `get_stream_by_name` returned
`(None, None)`. -/
def offlineObs : Observation := { display_name := none, stream_title := none }

/-- A live observation with both fields present and non-empty. -/
def liveObs : Observation :=
  { display_name := some "Alice", stream_title := some "Coding" }

/-- The observation sequence of the edge-triggering scenario:
offline, offline, live, live, offline, live. -/
def c1Seq : List Observation :=
  [offlineObs, offlineObs, liveObs, liveObs, offlineObs, liveObs]

/-- A sample application state: running, one pending task, open
session with a cached token, empty log. -/
def sampleState : AppState :=
  { is_running := true
    tasks := [{ done := false, cancelled := false }]
    api := { session := true, access_token := some "tok" }
    cleanup_complete_event := false
    log := [] }

/-- A sample stopped application state (after a finished cleanup). -/
def stoppedState : AppState :=
  { is_running := false
    tasks := [{ done := true, cancelled := true }]
    api := { session := false, access_token := none }
    cleanup_complete_event := true
    log := [AppEvent.taskCancel, AppEvent.apiClose, AppEvent.setEvent] }

end StreamNotif

namespace StreamNotif

/-- C1 counterexample: feeding the sequence
offline, offline, live, live, offline, live to `check_stream_status`
fires three notifications, not two — in particular one at index 3,
while the stream stays live, because the loop keeps no
"was streaming" state and its notifying branch runs on every live
observation. -/
theorem c1_counterexample :
    (notificationsFired c1Seq).count true = 3 ∧
    (notificationsFired c1Seq).getD 3 false = true := by
  decide

/-- C1 (amended): the loop is level-triggered, not edge-triggered — a
notification fires at every index whose observation has a truthy
display name and title, independently of the previous observations;
on the given sequence three notifications fire, at indices 2, 3
and 5. -/
theorem c1_level_triggered :
    notificationsFired c1Seq = [false, false, true, true, false, true] ∧
    (notificationsFired c1Seq).count true = 3 ∧
    ∀ (pre : List Observation) (o : Observation),
      notificationsFired (pre ++ [o]) =
        notificationsFired pre ++ [notifies o] := by
  refine ⟨by decide, by decide, ?_⟩
  intro pre o
  simp [notificationsFired]

/-- C2 counterexample: a transport/HTTP failure of the `streams`
request (the raised `TwitchAPIError`, `Except.error ()`) and an empty
result set produce the very same return value of
`get_stream_by_name`, so the caller cannot tell them apart. -/
theorem c2_counterexample :
    get_stream_by_name (Except.error ()) = (none, none) ∧
    get_stream_by_name (Except.ok (some [])) = (none, none) := by
  decide

/-- C2 (amended): `get_stream_by_name` catches `TwitchAPIError`, logs
it, and returns `(None, None)` — the same value as for an empty or
missing result set; only a non-empty result set is distinguishable
(it yields the first record's fields). -/
theorem c2_offline_error_conflated :
    get_stream_by_name (Except.error ()) = (none, none) ∧
    get_stream_by_name (Except.ok (some [])) = (none, none) ∧
    get_stream_by_name (Except.ok none) = (none, none) ∧
    ∀ (r : StreamRecord) (rest : List StreamRecord),
      get_stream_by_name (Except.ok (some (r :: rest))) =
        (r.user_name, r.title) := by
  refine ⟨rfl, rfl, rfl, ?_⟩
  intro r rest
  rfl

/-- C3 counterexample: `"alice"` and `"Alice"` have equal lowercase
forms, yet the `regular_execution/main.py` revision of
`format_display_message` (cited by the claim) compares them
case-sensitively and returns the parenthesised form. -/
theorem c3_counterexample :
    py_lower "alice" = py_lower "Alice" ∧
    format_display_message_regular "alice" "Alice" "Coding" =
      "Alice(alice) has started streaming: Coding" ∧
    format_display_message_regular "alice" "Alice" "Coding" ≠
      "Alice has started streaming: Coding" := by
  refine ⟨by decide, by decide, by decide⟩

/-- C3 (amended): the case-insensitive rule holds as stated for
`format_display_message` in `src/` (both `main.py` and
`stream_notification.py`); the `regular_execution/main.py` revision
splits on exact string equality instead, so it returns the
display-name-only form exactly when login and display name are equal
including case. -/
theorem c3_format_rules (u d t : String) :
    (py_lower u = py_lower d →
      format_display_message u d t =
        d ++ " has started streaming: " ++ t) ∧
    (py_lower u ≠ py_lower d →
      format_display_message u d t =
        d ++ "(" ++ u ++ ")" ++ " has started streaming: " ++ t) ∧
    (u = d →
      format_display_message_regular u d t =
        d ++ " has started streaming: " ++ t) ∧
    (u ≠ d →
      format_display_message_regular u d t =
        d ++ "(" ++ u ++ ")" ++ " has started streaming: " ++ t) := by
  refine ⟨?_, ?_, ?_, ?_⟩ <;> intro h <;>
    simp only [format_display_message, format_display_message_regular] <;>
    (first
      | rw [if_pos h]
      | rw [if_neg h]) <;>
    simp only [← String.append_assoc]

/-- Witness for `c3_format_rules` at the concrete pair
`("alice", "Alice")`. -/
theorem c3_format_rules_witness :
    format_display_message "alice" "Alice" "Coding" =
      "Alice" ++ " has started streaming: " ++ "Coding" ∧
    format_display_message_regular "alice" "Alice" "Coding" =
      "Alice" ++ "(" ++ "alice" ++ ")" ++ " has started streaming: " ++
        "Coding" :=
  ⟨(c3_format_rules "alice" "Alice" "Coding").1 (by decide),
   (c3_format_rules "alice" "Alice" "Coding").2.2.2 (by decide)⟩

/-- C4 counterexample: with a cached token, an authenticated call that
the service answers with status 401 fails with `TwitchAPIError`
(`Except.error`), but the cached `access_token` is NOT cleared — the
resulting client state still holds `some "tok"`, not `none`. -/
theorem c4_counterexample :
    get_response { session := true, access_token := some "tok" }
      TokenEndpoint.fail
      (HttpReply.status 401 (none : Option (List StreamRecord))) =
      (Except.error (),
        { session := true, access_token := some "tok" }) := by
  rfl

/-- C4 (amended): on an authorization failure (any status ≥ 400) the
call fails with `TwitchAPIError` and the client state — including the
cached `access_token` — is left unchanged; the credential is cleared
only by `close()`, and `_ensure_access_token` fetches a new token
only when none is cached. -/
theorem c4_auth_failure_keeps_token (tok t2 : String) (te : TokenEndpoint)
    (code : Nat) (dat : Option (List StreamRecord)) (h : 400 ≤ code) :
    get_response { session := true, access_token := some tok } te
        (HttpReply.status code dat) =
      (Except.error (),
        { session := true, access_token := some tok }) ∧
    close { session := true, access_token := some tok } =
      { session := false, access_token := none } ∧
    ensure_access_token { session := true, access_token := none }
        (TokenEndpoint.grant t2) =
      Except.ok { session := true, access_token := some t2 } := by
  refine ⟨?_, ?_, ?_⟩
  · simp [get_response, ensure_access_token, h]
  · simp [close]
  · simp [ensure_access_token]

/-- Counting in a constant-mapped list: every element contributes. -/
theorem count_const_map_self (l : List TaskRec) (e : AppEvent) :
    (l.map fun _ => e).count e = l.length := by
  induction l with
  | nil => rfl
  | cons a l ih => simp [List.count_cons, ih]

/-- Counting a different event in a constant-mapped list gives 0. -/
theorem count_const_map_ne (l : List TaskRec) (e b : AppEvent)
    (h : e ≠ b) : (l.map fun _ => e).count b = 0 := by
  induction l with
  | nil => rfl
  | cons a l ih =>
      rw [List.map_cons, List.count_cons, ih]
      simp [h]

/-- C5: `cleanup` is idempotent — a second call finds `is_running`
already false and returns at once, so calling it twice yields exactly
the state (and log of observable effects) of calling it once; when
the application was running, the single effective call flips
`is_running`, sets the completion event exactly once, closes the API
session exactly once (when one is open), and cancels each
not-yet-done task exactly once. -/
theorem cleanup_idempotent (s : AppState) :
    cleanup (cleanup s) = cleanup s ∧
    (s.is_running = true →
      (cleanup s).is_running = false ∧
      (cleanup s).log.count AppEvent.setEvent =
        s.log.count AppEvent.setEvent + 1 ∧
      (cleanup s).log.count AppEvent.taskCancel =
        s.log.count AppEvent.taskCancel +
          (s.tasks.filter fun t => !t.done).length ∧
      (cleanup s).log.count AppEvent.apiClose =
        s.log.count AppEvent.apiClose +
          (if s.api.session then 1 else 0)) := by
  constructor
  · by_cases h : s.is_running <;> simp [cleanup, h]
  · intro h
    refine ⟨by simp [cleanup, h], ?_, ?_, ?_⟩ <;>
      by_cases hs : s.api.session <;>
      simp [cleanup, h, hs, List.count_append, List.count_singleton,
        count_const_map_self, count_const_map_ne, List.count_cons,
        List.count_nil, List.count_replicate]

/-- Witness for `cleanup_idempotent` at a running sample state. -/
theorem cleanup_idempotent_witness :
    cleanup (cleanup sampleState) = cleanup sampleState ∧
    (cleanup sampleState).is_running = false ∧
    (cleanup sampleState).log.count AppEvent.setEvent =
      sampleState.log.count AppEvent.setEvent + 1 :=
  ⟨(cleanup_idempotent sampleState).1,
   ((cleanup_idempotent sampleState).2 rfl).1,
   ((cleanup_idempotent sampleState).2 rfl).2.1⟩

/-- C6: when the `users` lookup of the existence check returns an
empty result set, the session emits only the lookup and the
"not found" message: the status task is never created, so no
`get_stream_by_name` call and no polling iteration happens. -/
theorem not_found_short_circuit (imageOk : Bool)
    (obs : List Observation) :
    runSession (Except.ok (some [])) imageOk obs =
      [AppEvent.lookupBroadcaster, AppEvent.notFoundMsg] ∧
    AppEvent.getLiveStream ∉ runSession (Except.ok (some [])) imageOk obs ∧
    AppEvent.notify ∉ runSession (Except.ok (some [])) imageOk obs := by
  refine ⟨?_, ?_, ?_⟩ <;>
    simp [runSession, get_broadcaster_id, check_streamer_existence, truthy]

/-- C7: each iteration of `check_stream_status` sleeps
`STREAMING_INTERVAL` after the notifying (live) branch and
`CHECK_INTERVAL` after any other observation. -/
theorem interval_selection (o : Observation) :
    (notifies o = true →
      iterEvents o =
        [AppEvent.getLiveStream, AppEvent.notify,
         AppEvent.sleep STREAMING_INTERVAL]) ∧
    (notifies o = false →
      iterEvents o =
        [AppEvent.getLiveStream, AppEvent.sleep CHECK_INTERVAL]) := by
  constructor <;> intro h <;> simp [iterEvents, sleepInterval, h]

/-- Witness for `interval_selection` at a live and an offline
observation. -/
theorem interval_selection_witness :
    iterEvents liveObs =
      [AppEvent.getLiveStream, AppEvent.notify,
       AppEvent.sleep STREAMING_INTERVAL] ∧
    iterEvents offlineObs =
      [AppEvent.getLiveStream, AppEvent.sleep CHECK_INTERVAL] :=
  ⟨(interval_selection liveObs).1 (by decide),
   (interval_selection offlineObs).2 (by decide)⟩

/-- C8: `is_running` starts true; the only step that changes it is a
`cleanup` step, and the change is one-way true → false; once it is
false every step is a stutter (the `while self.is_running` guard
stops the poll task and `cleanup` returns at once), so no further
poll iteration runs and no further notification fires. -/
theorem is_running_monotonic :
    (∀ tok, (initState tok).is_running = true) ∧
    (∀ s s2, AppStep s s2 → s2.is_running ≠ s.is_running →
      s2 = cleanup s ∧ s.is_running = true ∧ s2.is_running = false) ∧
    (∀ s s2, AppStep s s2 → s.is_running = false → s2 = s) := by
  refine ⟨fun tok => rfl, ?_, ?_⟩
  · intro s s2 hstep hne
    cases hstep with
    | poll o s h => exact absurd rfl hne
    | doCleanup s =>
        by_cases h : s.is_running
        · exact ⟨rfl, h, by simp [cleanup, h]⟩
        · exact absurd (by simp [cleanup, h]) hne
  · intro s s2 hstep h
    cases hstep with
    | poll o s hrun => rw [hrun] at h; cases h
    | doCleanup s => simp [cleanup, h]

/-- Witness for `is_running_monotonic`: from a stopped state, a
cleanup step leaves the state unchanged. -/
theorem is_running_monotonic_witness :
    cleanup stoppedState = stoppedState :=
  is_running_monotonic.2.2 stoppedState (cleanup stoppedState)
    (AppStep.doCleanup stoppedState) rfl

/-- C9: when the first record returned by the `streams` endpoint has
an empty-string title, the loop iteration built from
`get_stream_by_name` does not notify and sleeps `CHECK_INTERVAL` —
the live-but-empty-title observation is treated like offline. -/
theorem empty_title_treated_offline (r : StreamRecord)
    (rest : List StreamRecord) (h : r.title = some "") :
    notifies (obsOf (get_stream_by_name (Except.ok (some (r :: rest)))))
      = false ∧
    iterEvents (obsOf (get_stream_by_name (Except.ok (some (r :: rest)))))
      = [AppEvent.getLiveStream, AppEvent.sleep CHECK_INTERVAL] := by
  constructor <;>
    simp [get_stream_by_name, obsOf, notifies, truthy, h, iterEvents,
      sleepInterval]

/-- Witness for `empty_title_treated_offline` at a concrete record. -/
theorem empty_title_treated_offline_witness :
    notifies (obsOf (get_stream_by_name (Except.ok
      (some [{ user_name := some "Alice", title := some "" }])))) = false :=
  (empty_title_treated_offline
    { user_name := some "Alice", title := some "" } [] rfl).1

/-- Witness for `c4_auth_failure_keeps_token` at status 503. -/
theorem c4_auth_failure_keeps_token_witness :
    get_response { session := true, access_token := some "tok" }
        (TokenEndpoint.grant "t2")
        (HttpReply.status 503 (some ([] : List StreamRecord))) =
      (Except.error (),
        { session := true, access_token := some "tok" }) :=
  (c4_auth_failure_keeps_token "tok" "t2" (TokenEndpoint.grant "t2") 503
    (some []) (by decide)).1

/-- C10 counterexample: the string "a\n" contains a character outside
`[a-zA-Z0-9_]` (the newline), yet `validate` returns without raising,
because Python's `$` also matches just before a string-final
newline. -/
theorem c10_counterexample :
    ("a\n".data.any fun c => !is_word_char c) = true ∧
    validate "a\n" = Except.ok () := by
  constructor
  · decide
  · rfl

/-- Spec-level reading of the test
`re.match(r"^[a-zA-Z0-9_]+$", s) is not None` as embedded in
`re_match_username`: it accepts exactly the non-empty all-word
strings and those consisting of a non-empty word body followed by a
single trailing newline. -/
theorem re_match_username_iff (s : String) :
    re_match_username s = true ↔
      ((s.data ≠ [] ∧ ∀ c ∈ s.data, is_word_char c = true) ∨
       (∃ cs, s.data = cs ++ [Char.ofNat 10] ∧ cs ≠ [] ∧
          ∀ c ∈ cs, is_word_char c = true)) := by
  constructor
  · intro h
    simp only [re_match_username, Bool.or_eq_true, Bool.and_eq_true,
      Bool.not_eq_true', List.isEmpty_eq_false, List.all_eq_true,
      decide_eq_true_eq, and_assoc] at h
    rcases h with ⟨h1, h2⟩ | ⟨hlast, hne, hall⟩
    · exact Or.inl ⟨h1, h2⟩
    · rcases List.getLast?_eq_some_iff.mp hlast with ⟨ys, hys⟩
      rw [hys, List.dropLast_concat] at hne hall
      exact Or.inr ⟨ys, hys, hne, hall⟩
  · intro h
    simp only [re_match_username, Bool.or_eq_true, Bool.and_eq_true,
      Bool.not_eq_true', List.isEmpty_eq_false, List.all_eq_true,
      decide_eq_true_eq, and_assoc]
    rcases h with ⟨h1, h2⟩ | ⟨cs, hcs, hne, hall⟩
    · exact Or.inl ⟨h1, h2⟩
    · rw [hcs]
      rw [List.getLast?_concat, List.dropLast_concat]
      exact Or.inr ⟨rfl, hne, hall⟩

/-- C10 (amended): `validate` raises `ValidationError` exactly on the
empty string and on the strings rejected by
`re.match(r"^[a-zA-Z0-9_]+$", ·)`: it accepts exactly the strings of
one or more word characters, possibly followed by one trailing
newline (Python's `$` also matches just before a string-final
newline).  In particular every string of one or more ASCII letters,
digits or underscores returns without raising. -/
theorem validate_ok_iff (s : String) :
    validate s = Except.ok () ↔
      ((s.data ≠ [] ∧ ∀ c ∈ s.data, is_word_char c = true) ∨
       (∃ cs, s.data = cs ++ [Char.ofNat 10] ∧ cs ≠ [] ∧
          ∀ c ∈ cs, is_word_char c = true)) := by
  rw [← re_match_username_iff]
  unfold validate
  by_cases h0 : s = ""
  · subst h0
    simp [show re_match_username "" = false from rfl]
  · rw [if_neg h0]
    by_cases hm : re_match_username s = true
    · simp [hm]
    · simp [Bool.not_eq_true] at hm
      simp [hm]

/-- Witness for `validate_ok_iff` at the concrete username "abc". -/
theorem validate_ok_iff_witness : validate "abc" = Except.ok () :=
  (validate_ok_iff "abc").mpr (Or.inl ⟨by decide, by decide⟩)

end StreamNotif
